import Mathlib

/-!
Shallow embedding of the ring buffer implementation in `src/ringBuffer.c`
(lib-buffer). Pointers into the byte region are modelled as natural-number
offsets from `pBufferBegin`; the byte region and the `dataLen` chunk log are
modelled as total functions `Nat → Nat` (entries that were never written hold
0, matching the zero-initialised global array). `memcpy` becomes `writeBytes`,
and the zero-copy read view becomes the list of bytes the returned pointer
designates. Failure paths return an `RbError` value named after the
corresponding `EPRINT` branch of the C source, paired with the (possibly
mutated) state, mirroring the in-place mutation order of the C functions.
`malloc` during fragment reassembly is assumed to succeed.
-/

namespace RingBuffer

/-- `MAX_DATA_INDEX` from ringBuffer.c: number of slots in the `dataLen` log. -/
def MAX_DATA_INDEX : Nat := 1000

/-- `MAX_BUFFER_HANDLE` from ringBuffer.c: number of slots in `gRbInfo`. -/
def MAX_BUFFER_HANDLE : Nat := 10

/-- `INVALID_BUFFER_HANDLE` sentinel from ringBuffer.c. -/
def INVALID_BUFFER_HANDLE : Int := -1

/-- Error kinds, one per distinct failure branch (`EPRINT` site) of the C
source, with the names the specification gives them in §7. -/
inductive RbError where
  | invalidHandle
  | invalidData
  | chunkLogFull
  | insufficientSpace
  | readNotCommitted
  | noData
  | noPendingPeek
  | invalidDataSize
  | commitLengthMismatch
deriving DecidableEq, Repr

/-- `Rb_Info_t` from ringBuffer.c. `region` models the bytes at
`pBufferBegin[0..]`; `pWriter`/`pReader` are offsets from `pBufferBegin`;
`fragmentedDataPtr` models the reassembly allocation (`some contents` when
allocated). -/
structure Rb_Info where
  region : Nat → Nat
  pWriter : Nat
  pReader : Nat
  size : Nat
  readIndex : Nat
  writeIndex : Nat
  dataLen : Nat → Nat
  bufferHandle : Int
  fragmentedDataF : Bool
  fragmentedDataPtr : Option (List Nat)
  readCommittedF : Bool

/-- `memcpy(region + off, data, data.length)`: write the bytes of `data` into
the region model starting at offset `off`. -/
def writeBytes (f : Nat → Nat) (off : Nat) (data : List Nat) : Nat → Nat :=
  match data with
  | [] => f
  | b :: rest => writeBytes (Function.update f off b) (off + 1) rest

/-- The `n` bytes a returned read pointer designates, starting at `off`. -/
def readBytes (f : Nat → Nat) (off n : Nat) : List Nat :=
  (List.range n).map (fun i => f (off + i))

/-- `getUnreadIndexCount` (ringBuffer.c:542): circular distance from
`readIndex` to `writeIndex` in the chunk log. -/
def getUnreadIndexCount (st : Rb_Info) : Nat :=
  if st.writeIndex < st.readIndex then
    MAX_DATA_INDEX - (st.readIndex - st.writeIndex)
  else
    st.writeIndex - st.readIndex

/-- `getContiguousFreeSpace` (ringBuffer.c:562). -/
def getContiguousFreeSpace (st : Rb_Info) : Nat :=
  if st.pWriter < st.pReader then
    st.pReader - st.pWriter
  else
    st.size - st.pWriter

/-- `getFreeSpace` (ringBuffer.c:580). -/
def getFreeSpace (st : Rb_Info) : Nat :=
  if st.pWriter < st.pReader then
    st.pReader - st.pWriter
  else
    st.size - (st.pWriter - st.pReader)

/-- `getOccupiedSpace` (ringBuffer.c:598). -/
def getOccupiedSpace (st : Rb_Info) : Nat :=
  st.size - getFreeSpace st

/-- `IS_BUFFER_EMPTY` macro (ringBuffer.c:44). -/
def IS_BUFFER_EMPTY (st : Rb_Info) : Bool :=
  decide (getFreeSpace st = st.size)

/-- `IS_DATA_FRAGMENTED` macro (ringBuffer.c:40): the chunk at `readIndex`
ends exactly at the region boundary and the fragmented flag is set. -/
def isDataFragmented (st : Rb_Info) : Bool :=
  decide (st.pReader + st.dataLen st.readIndex = st.size) && st.fragmentedDataF

/-- The per-instance initialisation performed by `Rb_CreateBuffer`
(ringBuffer.c:160-176) for a fresh slot: cursors and indices 0, flags
cleared, no reassembly buffer. The freshly `malloc`ed region contents are
unspecified in C and modelled as zeros; the handle id is taken as 0. -/
def mkBuffer (bufferSizeInBytes : Nat) : Rb_Info :=
  { region := fun _ => 0
    pWriter := 0
    pReader := 0
    size := bufferSizeInBytes
    readIndex := 0
    writeIndex := 0
    dataLen := fun _ => 0
    bufferHandle := 0
    fragmentedDataF := false
    fragmentedDataPtr := none
    readCommittedF := true }

/-- `Rb_WriteToBuffer` (ringBuffer.c:271), after the handle-validity check
(handle validation is modelled at the table level, see `gRbInfoGet`). On
failure the state component is returned untouched, matching the C code where
every failing guard returns before any mutation. -/
def Rb_WriteToBuffer (st : Rb_Info) (data : List Nat) : (Except RbError Unit) × Rb_Info :=
  if data.length = 0 then (.error .invalidData, st)
  else if MAX_DATA_INDEX ≤ getUnreadIndexCount st then (.error .chunkLogFull, st)
  else if getFreeSpace st < data.length then (.error .insufficientSpace, st)
  else
    let cfs := getContiguousFreeSpace st
    let st1 :=
      if cfs < data.length then
        { st with
          region := writeBytes st.region st.pWriter (data.take cfs)
          dataLen := Function.update st.dataLen st.writeIndex cfs
          writeIndex := if st.writeIndex + 1 = MAX_DATA_INDEX then 0 else st.writeIndex + 1
          pWriter := 0
          fragmentedDataF := true }
      else st
    let rest := if cfs < data.length then data.drop cfs else data
    (.ok (), { st1 with
      region := writeBytes st1.region st1.pWriter rest
      dataLen := Function.update st1.dataLen st1.writeIndex rest.length
      writeIndex := if st1.writeIndex + 1 = MAX_DATA_INDEX then 0 else st1.writeIndex + 1
      pWriter := st1.pWriter + rest.length })

/-- `handleFragmentedPeek` (ringBuffer.c:455). Consumes the two chunk-log
entries, reassembles the two physical parts into a fresh buffer and leaves the
reader at offset `part2Bytes`. Note: the C source increments `readIndex` a
second time at line 471 WITHOUT the wrap-around check that the first increment
(line 463) has; the embedding reproduces this faithfully. `malloc` is assumed
to succeed. -/
def handleFragmentedPeek (st : Rb_Info) : (Except RbError (List Nat)) × Rb_Info :=
  let part1Bytes := st.dataLen st.readIndex
  let st1 := { st with
    dataLen := Function.update st.dataLen st.readIndex 0
    readIndex := if st.readIndex + 1 = MAX_DATA_INDEX then 0 else st.readIndex + 1 }
  let part2Bytes := st1.dataLen st1.readIndex
  let st2 := { st1 with
    dataLen := Function.update st1.dataLen st1.readIndex 0
    readIndex := st1.readIndex + 1 }
  let fragData := readBytes st2.region st2.pReader part1Bytes ++ readBytes st2.region 0 part2Bytes
  (.ok fragData, { st2 with fragmentedDataPtr := some fragData, pReader := part2Bytes })

/-- `Rb_PeekRead` (ringBuffer.c:345), after the handle-validity and out-param
checks. The returned list is the byte span the C function's `*readPtr` /
`*dataBytes` designate. Note that `readCommittedF` is cleared BEFORE the
no-data check, so a failed peek on an empty buffer still leaves the
read-outstanding state behind. -/
def Rb_PeekRead (st : Rb_Info) : (Except RbError (List Nat)) × Rb_Info :=
  if st.readCommittedF = false then (.error .readNotCommitted, st)
  else
    let st1 := { st with readCommittedF := false }
    if st1.dataLen st1.readIndex = 0 then (.error .noData, st1)
    else if isDataFragmented st1 then handleFragmentedPeek st1
    else (.ok (readBytes st1.region st1.pReader (st1.dataLen st1.readIndex)), st1)

/-- `handleFragmentedCommit` (ringBuffer.c:499): free the reassembly buffer
and clear the fragmented flag. -/
def handleFragmentedCommit (st : Rb_Info) : Rb_Info :=
  { st with fragmentedDataPtr := none, fragmentedDataF := false }

/-- `advanceReader` (ringBuffer.c:511). -/
def advanceReader (st : Rb_Info) (dataBytes : Nat) : Rb_Info :=
  { st with
    dataLen := Function.update st.dataLen st.readIndex 0
    pReader := st.pReader + dataBytes
    readIndex := if st.readIndex + 1 = MAX_DATA_INDEX then 0 else st.readIndex + 1 }

/-- `resetBuffer` (ringBuffer.c:528). -/
def resetBuffer (st : Rb_Info) : Rb_Info :=
  { st with pReader := 0, pWriter := 0, readIndex := 0, writeIndex := 0 }

/-- `Rb_CommitRead` (ringBuffer.c:394), after the handle-validity check.
`readCommittedF` is set back to true BEFORE the zero-length check, and the
fragmented branch performs no length validation at all. -/
def Rb_CommitRead (st : Rb_Info) (dataBytes : Nat) : (Except RbError Unit) × Rb_Info :=
  if st.readCommittedF = true then (.error .noPendingPeek, st)
  else
    let st1 := { st with readCommittedF := true }
    if dataBytes = 0 then (.error .invalidDataSize, st1)
    else
      match st1.fragmentedDataPtr with
      | some _ =>
        let st2 := handleFragmentedCommit st1
        if IS_BUFFER_EMPTY st2 then (.ok (), resetBuffer st2) else (.ok (), st2)
      | none =>
        if dataBytes = st1.dataLen st1.readIndex then
          let st2 := advanceReader st1 dataBytes
          if IS_BUFFER_EMPTY st2 then (.ok (), resetBuffer st2) else (.ok (), st2)
        else (.error .commitLengthMismatch, st1)

/-- Access to `gRbInfo[handle]`, modelling the raw array indexing: the table
is the list of the `MAX_BUFFER_HANDLE` slots, and an index outside the array
yields `none` (an out-of-bounds access in C). -/
def gRbInfoGet (tbl : List Rb_Info) (h : Int) : Option Rb_Info :=
  if 0 ≤ h ∧ h.toNat < tbl.length then tbl.get? h.toNat else none

/-- `IS_VALID_BUFFER_HANDLE` macro (ringBuffer.c:36): in range and the slot's
stored identity is not the invalid sentinel. -/
def isValidBufferHandle (tbl : List Rb_Info) (h : Int) : Bool :=
  decide (0 ≤ h) && decide (h < (MAX_BUFFER_HANDLE : Int)) &&
    (match gRbInfoGet tbl h with
     | some s => decide (s.bufferHandle ≠ INVALID_BUFFER_HANDLE)
     | none => false)

/-- `Rb_GetUnreadIndexCount` (ringBuffer.c:233): forwards straight to
`getUnreadIndexCount` with NO handle validation; the slot lookup itself is
unguarded, so an out-of-bounds handle reaches the raw array access (`none`
here) and a destroyed in-range slot is read as-is. -/
def Rb_GetUnreadIndexCountTable (tbl : List Rb_Info) (h : Int) : Option Nat :=
  (gRbInfoGet tbl h).map getUnreadIndexCount

/-- `Rb_GetFreeSpace` (ringBuffer.c:245): validates the handle first, unlike
`Rb_GetUnreadIndexCountTable`. -/
def Rb_GetFreeSpaceTable (tbl : List Rb_Info) (h : Int) : Except RbError Nat :=
  if isValidBufferHandle tbl h then
    match gRbInfoGet tbl h with
    | some s => .ok (getFreeSpace s)
    | none => .error .invalidHandle
  else .error .invalidHandle

/-- A caller-side operation on one buffer instance: a `Rb_WriteToBuffer` call,
or a read consisting of one `Rb_PeekRead` immediately followed by the matching
`Rb_CommitRead` of the returned length. -/
inductive Op where
  | write (data : List Nat)
  | read

/-- Apply one operation; `none` when the write, the peek or the commit
reports failure. -/
def applyOp (st : Rb_Info) : Op → Option Rb_Info
  | .write d =>
    match Rb_WriteToBuffer st d with
    | (.ok _, st1) => some st1
    | (.error _, _) => none
  | .read =>
    match Rb_PeekRead st with
    | (.ok l, st1) =>
      match Rb_CommitRead st1 l.length with
      | (.ok _, st2) => some st2
      | (.error _, _) => none
    | (.error _, _) => none

/-- Run a list of operations; `none` as soon as any of them fails, so a
`some` result certifies that every write was accepted and every peek and
commit succeeded. -/
def runOps (st : Rb_Info) : List Op → Option Rb_Info
  | [] => some st
  | op :: rest =>
    match applyOp st op with
    | some st1 => runOps st1 rest
    | none => none

/-! ### Concrete scenario traces

Each `cN_*` definition below is one step of a concrete operation sequence on a
freshly created buffer, used to evaluate the code at specific inputs. -/

/-- C4 trace: on a 10-byte buffer, write 6 bytes, write 4 bytes (filling the
region, write cursor at the region end), then read and commit the first
chunk. The resulting state has contiguous free space 0 with 6 bytes free. -/
def c4_w1 : (Except RbError Unit) × Rb_Info := Rb_WriteToBuffer (mkBuffer 10) (List.replicate 6 65)

def c4_w2 : (Except RbError Unit) × Rb_Info := Rb_WriteToBuffer c4_w1.2 (List.replicate 4 65)

def c4_p1 : (Except RbError (List Nat)) × Rb_Info := Rb_PeekRead c4_w2.2

def c4_c1 : (Except RbError Unit) × Rb_Info := Rb_CommitRead c4_p1.2 6

def c4_st : Rb_Info := c4_c1.2

/-- C6 trace: write one byte into a 1-byte buffer and peek it; committing it
drains the buffer. -/
def c6_w : (Except RbError Unit) × Rb_Info := Rb_WriteToBuffer (mkBuffer 1) [65]

def c6_p : (Except RbError (List Nat)) × Rb_Info := Rb_PeekRead c6_w.2

/-- C7 trace: the §8 scenario of the spec, step by step, on a 16-byte
buffer. -/
def c7_w1 : (Except RbError Unit) × Rb_Info := Rb_WriteToBuffer (mkBuffer 16) (List.replicate 10 65)

def c7_w2 : (Except RbError Unit) × Rb_Info := Rb_WriteToBuffer c7_w1.2 (List.replicate 10 66)

def c7_p1 : (Except RbError (List Nat)) × Rb_Info := Rb_PeekRead c7_w2.2

def c7_c1 : (Except RbError Unit) × Rb_Info := Rb_CommitRead c7_p1.2 10

def c7_w3 : (Except RbError Unit) × Rb_Info := Rb_WriteToBuffer c7_c1.2 (List.replicate 10 66)

def c7_p2 : (Except RbError (List Nat)) × Rb_Info := Rb_PeekRead c7_w3.2

def c7_c2 : (Except RbError Unit) × Rb_Info := Rb_CommitRead c7_p2.2 10

/-- C8 trace: on a 16-byte buffer, produce a genuinely fragmented chunk (10
bytes split 2+8 across the region boundary) whose peek leaves the reader at
offset 8, and whose commit drains the buffer. -/
def c8_w1 : (Except RbError Unit) × Rb_Info := Rb_WriteToBuffer (mkBuffer 16) (List.replicate 10 65)

def c8_w2 : (Except RbError Unit) × Rb_Info := Rb_WriteToBuffer c8_w1.2 (List.replicate 4 67)

def c8_p1 : (Except RbError (List Nat)) × Rb_Info := Rb_PeekRead c8_w2.2

def c8_c1 : (Except RbError Unit) × Rb_Info := Rb_CommitRead c8_p1.2 10

def c8_w3 : (Except RbError Unit) × Rb_Info := Rb_WriteToBuffer c8_c1.2 (List.replicate 10 66)

def c8_p2 : (Except RbError (List Nat)) × Rb_Info := Rb_PeekRead c8_w3.2

def c8_c2 : (Except RbError Unit) × Rb_Info := Rb_CommitRead c8_p2.2 4

def c8_p3 : (Except RbError (List Nat)) × Rb_Info := Rb_PeekRead c8_c2.2

/-- A destroyed (freed) slot: the stored identity is the invalid sentinel but
the stale indices are still in memory. -/
def deadSlot : Rb_Info :=
  { mkBuffer 0 with bufferHandle := INVALID_BUFFER_HANDLE, readIndex := 3, writeIndex := 7 }

/-- A full handle table whose slots have all been destroyed. -/
def c10_tbl : List Rb_Info := List.replicate MAX_BUFFER_HANDLE deadSlot

/-! ### The C1 trace

On a 3-byte buffer, 1-byte writes with one or two chunks outstanding march
`writeIndex`/`readIndex` forward by 4 slots per lap of the region (three data
entries plus one zero-length wrap marker). After the lead-in, each period of
three write/read pairs ends with a fragmented peek; the 250th fragmented peek
consumes log slots 998 and 999 and leaves `readIndex = 1000`. -/

def c1Lead : List Op :=
  [.write [65], .write [65], .read, .write [65], .read, .write [65], .read]

def c1Period : List Op :=
  [.write [65], .read, .write [65], .read, .write [65], .read]

def c1TraceK (k : Nat) : List Op := c1Lead ++ (List.replicate k c1Period).flatten

def c1FullTrace : List Op := c1TraceK 248 ++ c1Period

/-- The chunk-log contents after the lead-in plus `n - 1` full periods: a
single pending 1-byte entry at slot `4 * n`. -/
def dLf (n : Nat) : Nat → Nat := fun j => if j = 4 * n then 1 else 0

/-- The buffer state after the lead-in plus `n - 1` full periods of the C1
trace (the region contents and the handle id are irrelevant parameters). -/
def c1State (n : Nat) (reg : Nat → Nat) (bh : Int) : Rb_Info :=
  { region := reg
    pWriter := 1
    pReader := 0
    size := 3
    readIndex := 4 * n
    writeIndex := 4 * n + 1
    dataLen := dLf n
    bufferHandle := bh
    fragmentedDataF := false
    fragmentedDataPtr := none
    readCommittedF := true }

/-! ### The C2 trace

On a 1002-byte buffer, one 2-byte write followed by 999 1-byte writes leaves
1000 non-empty chunk-log entries outstanding with `writeIndex` wrapped back
to `readIndex = 0`. -/

def c2TraceK (k : Nat) : List Op := Op.write [65, 65] :: List.replicate k (.write [65])

def c2FullTrace : List Op := c2TraceK 999

/-- The chunk-log contents after the initial 2-byte write plus `k` 1-byte
writes. -/
def dLf2 (k : Nat) : Nat → Nat := fun j => if j = 0 then 2 else if j ≤ k then 1 else 0

/-- The buffer state after the initial 2-byte write plus `k` 1-byte writes of
the C2 trace, for `k ≤ 998`. -/
def c2State (k : Nat) (reg : Nat → Nat) (bh : Int) : Rb_Info :=
  { region := reg
    pWriter := k + 2
    pReader := 0
    size := 1002
    readIndex := 0
    writeIndex := k + 1
    dataLen := dLf2 k
    bufferHandle := bh
    fragmentedDataF := false
    fragmentedDataPtr := none
    readCommittedF := true }

/-! ### Basic lemmas about the embedding -/

theorem readBytes_length (f : Nat → Nat) (off n : Nat) :
    (readBytes f off n).length = n := by
  simp [readBytes]

theorem runOps_append (st : Rb_Info) (l1 l2 : List Op) :
    runOps st (l1 ++ l2) = (runOps st l1).bind (fun s => runOps s l2) := by
  induction l1 generalizing st with
  | nil => rfl
  | cons op rest ih =>
    simp only [List.cons_append, runOps]
    cases applyOp st op with
    | some st1 => exact ih st1
    | none => rfl

/-- The circular chunk-log distance is at most `MAX_DATA_INDEX - 1` whenever
the write index is in range, so the `chunkLogFull` guard can never fire. -/
theorem getUnreadIndexCount_lt (st : Rb_Info) (hwi : st.writeIndex < MAX_DATA_INDEX) :
    getUnreadIndexCount st < MAX_DATA_INDEX := by
  unfold getUnreadIndexCount
  split <;> omega

/-! ### Symbolic evaluation lemmas, one per branch of each operation -/

theorem writeToBuffer_nowrap (st : Rb_Info) (d : List Nat)
    (h0 : d.length ≠ 0)
    (h1 : getUnreadIndexCount st < MAX_DATA_INDEX)
    (h2 : d.length ≤ getFreeSpace st)
    (h3 : d.length ≤ getContiguousFreeSpace st) :
    Rb_WriteToBuffer st d = (.ok (), { st with
      region := writeBytes st.region st.pWriter d
      dataLen := Function.update st.dataLen st.writeIndex d.length
      writeIndex := if st.writeIndex + 1 = MAX_DATA_INDEX then 0 else st.writeIndex + 1
      pWriter := st.pWriter + d.length }) := by
  unfold Rb_WriteToBuffer
  rw [if_neg h0, if_neg (by omega), if_neg (by omega)]
  simp only [if_neg (show ¬ getContiguousFreeSpace st < d.length by omega)]

theorem writeToBuffer_wrap (st : Rb_Info) (d : List Nat)
    (h0 : d.length ≠ 0)
    (h1 : getUnreadIndexCount st < MAX_DATA_INDEX)
    (h2 : d.length ≤ getFreeSpace st)
    (h3 : getContiguousFreeSpace st < d.length) :
    Rb_WriteToBuffer st d = (.ok (), { st with
      region := writeBytes (writeBytes st.region st.pWriter (d.take (getContiguousFreeSpace st)))
        0 (d.drop (getContiguousFreeSpace st))
      dataLen := Function.update
        (Function.update st.dataLen st.writeIndex (getContiguousFreeSpace st))
        (if st.writeIndex + 1 = MAX_DATA_INDEX then 0 else st.writeIndex + 1)
        (d.drop (getContiguousFreeSpace st)).length
      writeIndex :=
        if (if st.writeIndex + 1 = MAX_DATA_INDEX then 0 else st.writeIndex + 1) + 1 = MAX_DATA_INDEX
        then 0 else (if st.writeIndex + 1 = MAX_DATA_INDEX then 0 else st.writeIndex + 1) + 1
      pWriter := (d.drop (getContiguousFreeSpace st)).length
      fragmentedDataF := true }) := by
  unfold Rb_WriteToBuffer
  rw [if_neg h0, if_neg (by omega), if_neg (by omega)]
  simp only [if_pos h3, Nat.zero_add]

theorem peekRead_normal (st : Rb_Info)
    (h1 : st.readCommittedF = true)
    (h2 : st.dataLen st.readIndex ≠ 0)
    (h3 : isDataFragmented st = false) :
    Rb_PeekRead st = (.ok (readBytes st.region st.pReader (st.dataLen st.readIndex)),
      { st with readCommittedF := false }) := by
  have h3' : isDataFragmented { st with readCommittedF := false } = false := h3
  unfold Rb_PeekRead
  rw [if_neg (by simp [h1])]
  simp only [h3', Bool.false_eq_true, if_false, if_neg h2]

theorem peekRead_frag (st : Rb_Info)
    (h1 : st.readCommittedF = true)
    (h2 : st.dataLen st.readIndex ≠ 0)
    (h3 : isDataFragmented st = true)
    (h4 : st.readIndex + 1 ≠ MAX_DATA_INDEX) :
    Rb_PeekRead st = (.ok (readBytes st.region st.pReader (st.dataLen st.readIndex) ++
        readBytes st.region 0 (st.dataLen (st.readIndex + 1))),
      { st with
        dataLen := Function.update (Function.update st.dataLen st.readIndex 0) (st.readIndex + 1) 0
        readIndex := st.readIndex + 2
        pReader := st.dataLen (st.readIndex + 1)
        fragmentedDataPtr := some (readBytes st.region st.pReader (st.dataLen st.readIndex) ++
          readBytes st.region 0 (st.dataLen (st.readIndex + 1)))
        readCommittedF := false }) := by
  have h3' : isDataFragmented { st with readCommittedF := false } = true := h3
  unfold Rb_PeekRead
  rw [if_neg (by simp [h1])]
  simp only [if_neg h2, h3', if_true]
  unfold handleFragmentedPeek
  have e : (if st.readIndex + 1 = MAX_DATA_INDEX then 0 else st.readIndex + 1) = st.readIndex + 1 :=
    if_neg h4
  dsimp only
  rw [e, Function.update_noteq (show st.readIndex + 1 ≠ st.readIndex by omega)]

theorem commitRead_normal_noreset (st : Rb_Info) (n : Nat)
    (h1 : st.readCommittedF = false)
    (h2 : n ≠ 0)
    (h3 : st.fragmentedDataPtr = none)
    (h4 : n = st.dataLen st.readIndex)
    (h5 : IS_BUFFER_EMPTY (advanceReader { st with readCommittedF := true } n) = false) :
    Rb_CommitRead st n = (.ok (), advanceReader { st with readCommittedF := true } n) := by
  obtain ⟨reg, pw, pr, sz, ri, wi, dl, bh, ff, fp, rc⟩ := st
  dsimp only at h1 h3 h4 h5 ⊢
  subst h1 h3
  unfold Rb_CommitRead
  dsimp only
  rw [if_neg (by simp), if_neg h2, if_pos h4, if_neg (by simp [h5])]

theorem commitRead_frag_noreset (st : Rb_Info) (n : Nat) (l : List Nat)
    (h1 : st.readCommittedF = false)
    (h2 : n ≠ 0)
    (h3 : st.fragmentedDataPtr = some l)
    (h5 : IS_BUFFER_EMPTY (handleFragmentedCommit { st with readCommittedF := true }) = false) :
    Rb_CommitRead st n = (.ok (), handleFragmentedCommit { st with readCommittedF := true }) := by
  obtain ⟨reg, pw, pr, sz, ri, wi, dl, bh, ff, fp, rc⟩ := st
  dsimp only at h1 h3 h5 ⊢
  subst h1 h3
  unfold Rb_CommitRead
  dsimp only
  rw [if_neg (by simp), if_neg h2, if_neg (by simp [h5])]

theorem peekRead_uncommitted (st : Rb_Info) (h : st.readCommittedF = false) :
    Rb_PeekRead st = (.error .readNotCommitted, st) := by
  unfold Rb_PeekRead
  rw [if_pos h]

theorem peekRead_sets_outstanding (st : Rb_Info) (v : List Nat)
    (hok : (Rb_PeekRead st).1 = .ok v) : (Rb_PeekRead st).2.readCommittedF = false := by
  unfold Rb_PeekRead at hok ⊢
  by_cases h : st.readCommittedF = false
  · rw [if_pos h] at hok
    exact absurd hok (by simp)
  · rw [if_neg h] at hok ⊢
    dsimp only at hok ⊢
    by_cases h2 : st.dataLen st.readIndex = 0
    · rw [if_pos h2] at hok
      exact absurd hok (by simp)
    · rw [if_neg h2] at hok ⊢
      by_cases h3 : isDataFragmented { st with readCommittedF := false } = true
      · rw [if_pos h3] at hok ⊢
        rfl
      · rw [if_neg h3] at hok ⊢

theorem peekRead_noData (st : Rb_Info)
    (h1 : st.readCommittedF = true)
    (h2 : st.dataLen st.readIndex = 0) :
    Rb_PeekRead st = (.error .noData, { st with readCommittedF := false }) := by
  unfold Rb_PeekRead
  rw [if_neg (by simp [h1])]
  dsimp only
  rw [if_pos h2]

theorem commitRead_noPending (st : Rb_Info) (n : Nat) (h : st.readCommittedF = true) :
    Rb_CommitRead st n = (.error .noPendingPeek, st) := by
  unfold Rb_CommitRead
  rw [if_pos h]

theorem commitRead_mismatch (st : Rb_Info) (n : Nat)
    (h1 : st.readCommittedF = false)
    (h2 : n ≠ 0)
    (h3 : st.fragmentedDataPtr = none)
    (h4 : n ≠ st.dataLen st.readIndex) :
    Rb_CommitRead st n = (.error .commitLengthMismatch, { st with readCommittedF := true }) := by
  obtain ⟨reg, pw, pr, sz, ri, wi, dl, bh, ff, fp, rc⟩ := st
  dsimp only at h1 h3 h4 ⊢
  subst h1 h3
  unfold Rb_CommitRead
  dsimp only
  rw [if_neg (by simp), if_neg h2, if_neg h4]

theorem commitRead_zero (st : Rb_Info) (h1 : st.readCommittedF = false) :
    Rb_CommitRead st 0 = (.error .invalidDataSize, { st with readCommittedF := true }) := by
  unfold Rb_CommitRead
  rw [if_neg (by simp [h1])]
  dsimp only
  rw [if_pos rfl]

/-! ### Claim theorems -/

/-- C3: for every buffer state (with the write index in range, as in every
reachable state) and every `Rb_WriteToBuffer` call whose length exceeds the
current total circular free space, the call fails with `insufficientSpace`
and returns the state exactly as it was: write cursor, read cursor, both log
indices, every chunk-log entry and all bytes are untouched. -/
theorem c3_insufficientSpace_leaves_state_unchanged (st : Rb_Info) (data : List Nat)
    (hwi : st.writeIndex < MAX_DATA_INDEX)
    (h2 : getFreeSpace st < data.length) :
    Rb_WriteToBuffer st data = (.error .insufficientSpace, st) := by
  have h0 : data.length ≠ 0 := by omega
  unfold Rb_WriteToBuffer
  rw [if_neg h0, if_neg (by have := getUnreadIndexCount_lt st hwi; omega), if_pos h2]

theorem c3_witness :
    (mkBuffer 2).writeIndex < MAX_DATA_INDEX
    ∧ getFreeSpace (mkBuffer 2) < ([65, 65, 65] : List Nat).length
    ∧ Rb_WriteToBuffer (mkBuffer 2) [65, 65, 65] = (.error .insufficientSpace, mkBuffer 2) :=
  ⟨by decide, by decide,
    c3_insufficientSpace_leaves_state_unchanged (mkBuffer 2) [65, 65, 65] (by decide) (by decide)⟩

/-- C4 counterexample: on a 10-byte buffer holding 4 unread bytes with the
write cursor exactly at the region end (contiguous free space 0), a 3-byte
write succeeds and creates TWO chunk-log entries of lengths 0 and 3: the
write advances `writeIndex` from 2 to 4 and the slot 2 it claims is
zero-length, refuting the claim that every entry a successful write creates
is non-empty. -/
theorem c4_counterexample :
    (Rb_WriteToBuffer c4_st [66, 66, 66]).1 = .ok ()
    ∧ getContiguousFreeSpace c4_st = 0
    ∧ getFreeSpace c4_st = 6
    ∧ c4_st.writeIndex = 2
    ∧ (Rb_WriteToBuffer c4_st [66, 66, 66]).2.writeIndex = 4
    ∧ (Rb_WriteToBuffer c4_st [66, 66, 66]).2.dataLen 2 = 0
    ∧ (Rb_WriteToBuffer c4_st [66, 66, 66]).2.dataLen 3 = 3 :=
  ⟨rfl, rfl, rfl, rfl, rfl, rfl, rfl⟩

/-- C4 amended: every successful `Rb_WriteToBuffer` call creates exactly 1
(no wrap) or exactly 2 (one wrap) chunk-log entries and never spans more than
one wrap; the sole entry of a non-wrapping write and the second entry of a
wrapping write are non-empty, while the first entry of a wrapping write has
length equal to the contiguous free space at the time of the call, which can
be 0 when the write cursor sits exactly at the region end. -/
theorem c4_amended_write_postcondition (st : Rb_Info) (data : List Nat) (st2 : Rb_Info)
    (hok : Rb_WriteToBuffer st data = (.ok (), st2)) :
    (data.length ≤ getContiguousFreeSpace st →
       st2.dataLen = Function.update st.dataLen st.writeIndex data.length
       ∧ 0 < data.length
       ∧ st2.writeIndex = (if st.writeIndex + 1 = MAX_DATA_INDEX then 0 else st.writeIndex + 1)
       ∧ st2.fragmentedDataF = st.fragmentedDataF)
    ∧ (getContiguousFreeSpace st < data.length →
       st2.dataLen = Function.update
           (Function.update st.dataLen st.writeIndex (getContiguousFreeSpace st))
           (if st.writeIndex + 1 = MAX_DATA_INDEX then 0 else st.writeIndex + 1)
           (data.length - getContiguousFreeSpace st)
       ∧ 0 < data.length - getContiguousFreeSpace st
       ∧ st2.writeIndex = (if (if st.writeIndex + 1 = MAX_DATA_INDEX then 0 else st.writeIndex + 1) + 1 = MAX_DATA_INDEX
           then 0 else (if st.writeIndex + 1 = MAX_DATA_INDEX then 0 else st.writeIndex + 1) + 1)
       ∧ st2.fragmentedDataF = true) := by
  unfold Rb_WriteToBuffer at hok
  split at hok
  · exact absurd hok (by simp)
  · split at hok
    · exact absurd hok (by simp)
    · split at hok
      · exact absurd hok (by simp)
      · rename_i hg0 hg1 hg2
        dsimp only at hok
        injection hok with h1 h2
        subst h2
        constructor
        · intro hle
          have hc : ¬ (getContiguousFreeSpace st < data.length) := by omega
          rw [if_neg hc, if_neg hc]
          exact ⟨rfl, by omega, rfl, rfl⟩
        · intro hlt
          rw [if_pos hlt, if_pos hlt]
          refine ⟨by rw [List.length_drop], by omega, rfl, rfl⟩

theorem c4_witness :
    ([65, 65] : List Nat).length ≤ getContiguousFreeSpace (mkBuffer 4)
    ∧ (Rb_WriteToBuffer (mkBuffer 4) [65, 65]).2.dataLen =
        Function.update (mkBuffer 4).dataLen (mkBuffer 4).writeIndex ([65, 65] : List Nat).length :=
  ⟨by decide,
    ((c4_amended_write_postcondition (mkBuffer 4) [65, 65]
      (Rb_WriteToBuffer (mkBuffer 4) [65, 65]).2 rfl).1 (by decide)).1⟩

/-- C5: peek/commit discipline (for a valid handle, modelled past the handle
check). A second `Rb_PeekRead` after a successful peek with no intervening
commit fails with `readNotCommitted` and changes nothing; an `Rb_CommitRead`
with no outstanding peek fails with `noPendingPeek`; and committing a
non-fragmented peek with a nonzero length different from the peeked chunk's
length (the commit precondition of §4.3 requires `length > 0`) fails with
`commitLengthMismatch` and does not advance the read cursor or read index. -/
theorem c5_peek_commit_discipline (st : Rb_Info) (n : Nat) :
    ((∃ v, (Rb_PeekRead st).1 = .ok v) →
      Rb_PeekRead (Rb_PeekRead st).2 = (.error .readNotCommitted, (Rb_PeekRead st).2))
    ∧ (st.readCommittedF = true → Rb_CommitRead st n = (.error .noPendingPeek, st))
    ∧ (st.readCommittedF = false → st.fragmentedDataPtr = none → n ≠ 0 →
        n ≠ st.dataLen st.readIndex →
        (Rb_CommitRead st n).1 = .error .commitLengthMismatch ∧
        (Rb_CommitRead st n).2.pReader = st.pReader ∧
        (Rb_CommitRead st n).2.readIndex = st.readIndex) := by
  refine ⟨?_, ?_, ?_⟩
  · rintro ⟨v, hok⟩
    exact peekRead_uncommitted _ (peekRead_sets_outstanding st v hok)
  · intro h
    exact commitRead_noPending st n h
  · intro h1 h3 h2 h4
    rw [commitRead_mismatch st n h1 h2 h3 h4]
    exact ⟨rfl, rfl, rfl⟩

theorem c5_witness :
    (Rb_PeekRead (Rb_WriteToBuffer (mkBuffer 4) [65, 66]).2).1 = .ok [65, 66]
    ∧ Rb_PeekRead (Rb_PeekRead (Rb_WriteToBuffer (mkBuffer 4) [65, 66]).2).2 =
        (.error .readNotCommitted, (Rb_PeekRead (Rb_WriteToBuffer (mkBuffer 4) [65, 66]).2).2)
    ∧ Rb_CommitRead (mkBuffer 4) 5 = (.error .noPendingPeek, mkBuffer 4)
    ∧ (Rb_CommitRead (Rb_PeekRead (Rb_WriteToBuffer (mkBuffer 4) [65, 66]).2).2 7).1 =
        .error .commitLengthMismatch :=
  ⟨rfl,
    (c5_peek_commit_discipline (Rb_WriteToBuffer (mkBuffer 4) [65, 66]).2 7).1 ⟨[65, 66], rfl⟩,
    (c5_peek_commit_discipline (mkBuffer 4) 5).2.1 rfl,
    ((c5_peek_commit_discipline (Rb_PeekRead (Rb_WriteToBuffer (mkBuffer 4) [65, 66]).2).2 7).2.2
      rfl rfl (by decide) (by decide)).1⟩

/-- C6: whenever a successful `Rb_CommitRead` leaves the occupied bytes at 0
(free space equal to the capacity), the read cursor, write cursor, read index
and write index of the resulting state are all 0, so the next write begins at
offset 0 of the region. -/
theorem c6_drain_reset (st : Rb_Info) (n : Nat) (st2 : Rb_Info)
    (hok : Rb_CommitRead st n = (.ok (), st2))
    (hempty : getFreeSpace st2 = st2.size) :
    st2.pReader = 0 ∧ st2.pWriter = 0 ∧ st2.readIndex = 0 ∧ st2.writeIndex = 0 := by
  unfold Rb_CommitRead at hok
  split at hok
  · exact absurd hok (by simp)
  · split at hok
    · exact absurd hok (by simp)
    · dsimp only at hok
      split at hok
      · split at hok
        · injection hok with h1 h2
          subst h2
          exact ⟨rfl, rfl, rfl, rfl⟩
        · injection hok with h1 h2
          subst h2
          rename_i he
          exact absurd (by simp [IS_BUFFER_EMPTY, hempty]) he
      · split at hok
        · split at hok
          · injection hok with h1 h2
            subst h2
            exact ⟨rfl, rfl, rfl, rfl⟩
          · injection hok with h1 h2
            subst h2
            rename_i he
            exact absurd (by simp [IS_BUFFER_EMPTY, hempty]) he
        · exact absurd hok (by simp)

theorem c6_witness :
    getFreeSpace (Rb_CommitRead c6_p.2 1).2 = (Rb_CommitRead c6_p.2 1).2.size
    ∧ (Rb_CommitRead c6_p.2 1).2.pReader = 0
    ∧ (Rb_CommitRead c6_p.2 1).2.pWriter = 0
    ∧ (Rb_CommitRead c6_p.2 1).2.readIndex = 0
    ∧ (Rb_CommitRead c6_p.2 1).2.writeIndex = 0 := by
  have h := c6_drain_reset c6_p.2 1 (Rb_CommitRead c6_p.2 1).2 rfl rfl
  exact ⟨rfl, h.1, h.2.1, h.2.2.1, h.2.2.2⟩

/-- C7 counterexample: in the §8 scenario, committing the 10 `A` bytes drains
the buffer, so the drain-reset puts both cursors back to 0; the subsequent
10-byte `B` write therefore does NOT wrap: it stays contiguous, leaves the
fragmented flag clear, creates a single chunk-log entry, and its peek needs no
synthesized reassembly buffer — refuting the claimed wrap (6 tail + 4 head),
the claimed fragmented flag, and the claimed synthesized peek. -/
theorem c7_counterexample :
    c7_w1.1 = .ok ()
    ∧ c7_w2.1 = .error .insufficientSpace
    ∧ c7_c1.1 = .ok ()
    ∧ c7_c1.2.pWriter = 0 ∧ c7_c1.2.pReader = 0
    ∧ c7_w3.1 = .ok ()
    ∧ c7_w3.2.fragmentedDataF = false
    ∧ c7_w3.2.writeIndex = 1
    ∧ c7_p2.2.fragmentedDataPtr = none :=
  ⟨rfl, rfl, rfl, rfl, rfl, rfl, rfl, rfl, rfl⟩

/-- C7 amended: on a freshly created 16-byte buffer, writing 10 `A` bytes
succeeds; a second write of 10 `B` bytes fails with `insufficientSpace` (6
bytes free); `Rb_PeekRead` returns the 10 `A` bytes and `Rb_CommitRead 10`
succeeds, drains the buffer, and resets cursors and indices to 0; the
subsequent write of 10 `B` bytes therefore succeeds contiguously at offset 0
without wrapping and without setting the fragmented flag; `Rb_PeekRead`
returns the 10 `B` bytes zero-copy with no synthesized buffer; and the final
commit succeeds, drains the buffer and leaves the cursors at 0. -/
theorem c7_amended_scenario :
    c7_w1.1 = .ok ()
    ∧ getFreeSpace c7_w1.2 = 6
    ∧ c7_w2 = (.error .insufficientSpace, c7_w1.2)
    ∧ c7_p1.1 = .ok (List.replicate 10 65)
    ∧ c7_c1.1 = .ok ()
    ∧ c7_c1.2.pWriter = 0 ∧ c7_c1.2.pReader = 0
    ∧ c7_c1.2.readIndex = 0 ∧ c7_c1.2.writeIndex = 0
    ∧ c7_w3.1 = .ok ()
    ∧ c7_w3.2.fragmentedDataF = false
    ∧ c7_w3.2.pWriter = 10
    ∧ c7_w3.2.writeIndex = 1
    ∧ c7_p2.1 = .ok (List.replicate 10 66)
    ∧ c7_p2.2.fragmentedDataPtr = none
    ∧ c7_c2.1 = .ok ()
    ∧ c7_c2.2.pReader = 0 ∧ c7_c2.2.pWriter = 0
    ∧ getFreeSpace c7_c2.2 = 16 :=
  ⟨rfl, rfl, rfl, rfl, rfl, rfl, rfl, rfl, rfl, rfl, rfl, rfl, rfl, rfl, rfl, rfl, rfl, rfl, rfl⟩

/-- C8 counterexample: a fragmented peek of a 10-byte chunk (split 2+8)
leaves the reader at offset 8 with read index 4; committing it (with length
7, which is not even the reassembled total of 10, and is still accepted)
drains the buffer, and the drain-reset moves the read cursor from 8 to 0 and
the read index from 4 to 0 — refuting the claim that the commit does not
further move the read cursor or read index. -/
theorem c8_counterexample :
    c8_p3.2.fragmentedDataPtr = some (List.replicate 10 66)
    ∧ c8_p3.2.pReader = 8
    ∧ c8_p3.2.readIndex = 4
    ∧ (Rb_CommitRead c8_p3.2 7).1 = .ok ()
    ∧ (Rb_CommitRead c8_p3.2 7).2.pReader = 0
    ∧ (Rb_CommitRead c8_p3.2 7).2.readIndex = 0 :=
  ⟨rfl, rfl, rfl, rfl, rfl, rfl⟩

/-- C8 amended: every `Rb_CommitRead` issued while a reassembly buffer exists
(and with the peek outstanding) succeeds for ANY length > 0 without comparing
it against the reassembled total; it frees the reassembly buffer and clears
the fragmented flag, and it does not advance the read cursor or read index
beyond where the fragmented peek left them — except that when the commit
leaves the buffer fully drained, the drain-reset sets cursors and indices
to 0. -/
theorem c8_amended_fragmented_commit (st : Rb_Info) (n : Nat) (l : List Nat)
    (hf : st.fragmentedDataPtr = some l)
    (hr : st.readCommittedF = false)
    (hn : n ≠ 0) :
    (Rb_CommitRead st n).1 = .ok ()
    ∧ (Rb_CommitRead st n).2.fragmentedDataPtr = none
    ∧ (Rb_CommitRead st n).2.fragmentedDataF = false
    ∧ (getFreeSpace st ≠ st.size →
        (Rb_CommitRead st n).2.pReader = st.pReader
        ∧ (Rb_CommitRead st n).2.readIndex = st.readIndex)
    ∧ (getFreeSpace st = st.size →
        (Rb_CommitRead st n).2.pReader = 0 ∧ (Rb_CommitRead st n).2.readIndex = 0
        ∧ (Rb_CommitRead st n).2.pWriter = 0 ∧ (Rb_CommitRead st n).2.writeIndex = 0) := by
  obtain ⟨reg, pw, pr, sz, ri, wi, dl, bh, ff, fp, rc⟩ := st
  dsimp only at hf hr ⊢
  subst hf hr
  unfold Rb_CommitRead
  dsimp only
  rw [if_neg (by simp), if_neg hn]
  by_cases he : IS_BUFFER_EMPTY (handleFragmentedCommit
      ⟨reg, pw, pr, sz, ri, wi, dl, bh, ff, some l, true⟩) = true
  · rw [if_pos he]
    refine ⟨rfl, rfl, rfl, ?_, fun _ => ⟨rfl, rfl, rfl, rfl⟩⟩
    intro hne
    exact absurd (by simpa [IS_BUFFER_EMPTY, handleFragmentedCommit] using he) hne
  · rw [if_neg he]
    refine ⟨rfl, rfl, rfl, fun _ => ⟨rfl, rfl⟩, ?_⟩
    intro heq
    exact absurd (by simpa [IS_BUFFER_EMPTY, handleFragmentedCommit] using heq) he

theorem c8_witness :
    c8_p3.2.fragmentedDataPtr = some (List.replicate 10 66)
    ∧ c8_p3.2.readCommittedF = false
    ∧ (Rb_CommitRead c8_p3.2 7).1 = .ok ()
    ∧ (Rb_CommitRead c8_p3.2 7).2.fragmentedDataPtr = none :=
  ⟨rfl, rfl,
    (c8_amended_fragmented_commit c8_p3.2 7 (List.replicate 10 66) rfl rfl (by decide)).1,
    (c8_amended_fragmented_commit c8_p3.2 7 (List.replicate 10 66) rfl rfl (by decide)).2.1⟩

/-- C9 (implicit): a `Rb_PeekRead` on a valid handle with no pending data
(chunk length 0 at the read index) fails with `noData` but leaves the
read-outstanding state behind (`readCommittedF = false`), so every further
`Rb_PeekRead` fails with `readNotCommitted` even though no view was ever
delivered; only an `Rb_CommitRead` — which necessarily fails here — sets
`readCommittedF` back to true. -/
theorem c9_empty_peek_sets_outstanding (st : Rb_Info)
    (h1 : st.readCommittedF = true)
    (h2 : st.dataLen st.readIndex = 0)
    (h3 : st.fragmentedDataPtr = none) :
    (Rb_PeekRead st).1 = .error .noData
    ∧ (Rb_PeekRead st).2.readCommittedF = false
    ∧ (Rb_PeekRead (Rb_PeekRead st).2).1 = .error .readNotCommitted
    ∧ (∀ n, (Rb_CommitRead (Rb_PeekRead st).2 n).1 ≠ .ok ()
          ∧ (Rb_CommitRead (Rb_PeekRead st).2 n).2.readCommittedF = true) := by
  rw [peekRead_noData st h1 h2]
  refine ⟨rfl, rfl, ?_, ?_⟩
  · rw [peekRead_uncommitted _ rfl]
  · intro n
    dsimp only
    by_cases hn : n = 0
    · subst hn
      rw [commitRead_zero { st with readCommittedF := false } rfl]
      exact ⟨by simp, rfl⟩
    · rw [commitRead_mismatch { st with readCommittedF := false } n rfl hn h3
        (show n ≠ st.dataLen st.readIndex from by rw [h2]; exact hn)]
      exact ⟨by simp, rfl⟩

theorem c9_witness :
    (Rb_PeekRead (mkBuffer 4)).1 = .error .noData
    ∧ (Rb_PeekRead (mkBuffer 4)).2.readCommittedF = false
    ∧ (Rb_PeekRead (Rb_PeekRead (mkBuffer 4)).2).1 = .error .readNotCommitted
    ∧ (Rb_CommitRead (Rb_PeekRead (mkBuffer 4)).2 5).1 ≠ .ok ()
    ∧ (Rb_CommitRead (Rb_PeekRead (mkBuffer 4)).2 5).2.readCommittedF = true := by
  have h := c9_empty_peek_sets_outstanding (mkBuffer 4) rfl rfl rfl
  exact ⟨h.1, h.2.1, h.2.2.1, (h.2.2.2 5).1, (h.2.2.2 5).2⟩

/-- C10 (implicit): `Rb_GetUnreadIndexCount` performs no handle validation,
unlike the other public operations: for a handle outside `[0, N)` the raw
slot lookup is out of bounds (the unguarded access reaches the error case of
the modelled array access), and for an in-range but destroyed slot it returns
the count computed from that slot's stale indices, whereas `Rb_GetFreeSpace`
on the same handle fails with `invalidHandle`. -/
theorem c10_no_handle_validation (tbl : List Rb_Info)
    (hlen : tbl.length = MAX_BUFFER_HANDLE) (h : Int) :
    ((h < 0 ∨ (MAX_BUFFER_HANDLE : Int) ≤ h) → Rb_GetUnreadIndexCountTable tbl h = none)
    ∧ (∀ s, gRbInfoGet tbl h = some s → s.bufferHandle = INVALID_BUFFER_HANDLE →
        Rb_GetUnreadIndexCountTable tbl h = some (getUnreadIndexCount s)
        ∧ Rb_GetFreeSpaceTable tbl h = .error .invalidHandle) := by
  constructor
  · intro hoob
    unfold Rb_GetUnreadIndexCountTable gRbInfoGet
    rw [if_neg (by
      rw [hlen]
      unfold MAX_BUFFER_HANDLE at hoob ⊢
      omega)]
    rfl
  · intro s hs hdead
    refine ⟨?_, ?_⟩
    · unfold Rb_GetUnreadIndexCountTable
      rw [hs]
      rfl
    · unfold Rb_GetFreeSpaceTable
      rw [if_neg (by
        unfold isValidBufferHandle
        rw [hs]
        simp [hdead])]

theorem c10_witness :
    Rb_GetUnreadIndexCountTable c10_tbl 12 = none
    ∧ Rb_GetUnreadIndexCountTable c10_tbl 3 = some (getUnreadIndexCount deadSlot)
    ∧ getUnreadIndexCount deadSlot = 4
    ∧ Rb_GetFreeSpaceTable c10_tbl 3 = .error .invalidHandle := by
  refine ⟨(c10_no_handle_validation c10_tbl rfl 12).1 (Or.inr (by decide)), ?_, by decide, ?_⟩
  · exact ((c10_no_handle_validation c10_tbl rfl 3).2 deadSlot rfl rfl).1
  · exact ((c10_no_handle_validation c10_tbl rfl 3).2 deadSlot rfl rfl).2

/-- C2: the claim fails on the code. A freshly created 1002-byte buffer
accepts one 2-byte write and then 999 further 1-byte writes, leaving all 1000
chunk-log entries non-empty (L = 1000 un-read entries outstanding) with
`writeIndex` wrapped around to `readIndex`; `getUnreadIndexCount` then
returns 0, so the `chunkLogFull` guard (which fires only at >= 1000, a value
the circular distance can never reach) does not reject the next write: the
1001st write is accepted and OVERWRITES the chunk-log entry of the oldest
un-read chunk (slot 0 changes from 2 to 1). -/
theorem dLf2_step (k : Nat) : Function.update (dLf2 k) (k + 1) 1 = dLf2 (k + 1) := by
  funext j
  simp only [dLf2, Function.update_apply]
  split_ifs <;> omega

theorem c2_base :
    ∃ reg, runOps (mkBuffer 1002) (c2TraceK 0) = some (c2State 0 reg 0) := by
  have hw := writeToBuffer_nowrap (mkBuffer 1002) [65, 65] (by decide)
    (by decide) (by decide) (by decide)
  refine ⟨writeBytes (fun _ => 0) 0 [65, 65], ?_⟩
  simp only [c2TraceK, List.replicate, runOps, applyOp, hw]
  unfold mkBuffer c2State
  dsimp only
  simp only [Option.some.injEq, Rb_Info.mk.injEq]
  refine ⟨trivial, by decide, trivial, trivial, trivial, by decide, ?_, trivial, trivial, trivial, trivial⟩
  funext j
  simp only [dLf2, Function.update_apply, List.length_cons, List.length_nil]
  split_ifs <;> omega

theorem c2_step (k : Nat) (hk : k ≤ 997) (reg : Nat → Nat) :
    ∃ reg2, applyOp (c2State k reg 0) (.write [65]) = some (c2State (k + 1) reg2 0) := by
  have hcount : getUnreadIndexCount (c2State k reg 0) < MAX_DATA_INDEX := by
    unfold getUnreadIndexCount c2State MAX_DATA_INDEX
    dsimp only
    split <;> omega
  have hfree : ([65] : List Nat).length ≤ getFreeSpace (c2State k reg 0) := by
    unfold getFreeSpace c2State
    simp only [List.length_cons, List.length_nil]
    split <;> omega
  have hcfs : ([65] : List Nat).length ≤ getContiguousFreeSpace (c2State k reg 0) := by
    unfold getContiguousFreeSpace c2State
    simp only [List.length_cons, List.length_nil]
    split <;> omega
  have hw := writeToBuffer_nowrap (c2State k reg 0) [65] (by decide) hcount hfree hcfs
  refine ⟨writeBytes reg (k + 2) [65], ?_⟩
  simp only [applyOp, hw]
  unfold c2State
  dsimp only
  simp only [Option.some.injEq, Rb_Info.mk.injEq]
  refine ⟨trivial, by simp only [List.length_cons, List.length_nil], trivial, trivial,
    trivial, ?_, ?_, trivial, trivial, trivial, trivial⟩
  · rw [if_neg (by unfold MAX_DATA_INDEX; omega)]
  · simp only [List.length_cons, List.length_nil]
    exact dLf2_step k

theorem c2_reach : ∀ k, k ≤ 998 →
    ∃ reg, runOps (mkBuffer 1002) (c2TraceK k) = some (c2State k reg 0) := by
  intro k
  induction k with
  | zero => intro _; exact c2_base
  | succ k ih =>
    intro hk
    obtain ⟨reg, hrun⟩ := ih (by omega)
    have htr : c2TraceK (k + 1) = c2TraceK k ++ [.write [65]] := by
      simp [c2TraceK, List.replicate_succ']
    obtain ⟨reg2, happ⟩ := c2_step k (by omega) reg
    refine ⟨reg2, ?_⟩
    rw [htr, runOps_append, hrun]
    simp only [Option.some_bind]
    rw [runOps, happ]
    rfl



theorem c2_chunkLogFull_guard_unreachable :
    ∃ st, runOps (mkBuffer 1002) c2FullTrace = some st
      ∧ (∀ j, j < MAX_DATA_INDEX → st.dataLen j ≠ 0)
      ∧ getUnreadIndexCount st = 0
      ∧ st.readIndex = 0 ∧ st.writeIndex = 0
      ∧ st.dataLen 0 = 2
      ∧ (Rb_WriteToBuffer st [66]).1 = .ok ()
      ∧ (Rb_WriteToBuffer st [66]).2.dataLen 0 = 1
      ∧ (Rb_WriteToBuffer st [66]).2.writeIndex = 1 := by
  obtain ⟨reg, hrun⟩ := c2_reach 998 (by omega)
  have hcount : getUnreadIndexCount (c2State 998 reg 0) < MAX_DATA_INDEX := by
    unfold getUnreadIndexCount c2State MAX_DATA_INDEX
    dsimp only
    split <;> omega
  have hfree : ([65] : List Nat).length ≤ getFreeSpace (c2State 998 reg 0) := by
    unfold getFreeSpace c2State
    simp only [List.length_cons, List.length_nil]
    split <;> omega
  have hcfs : ([65] : List Nat).length ≤ getContiguousFreeSpace (c2State 998 reg 0) := by
    unfold getContiguousFreeSpace c2State
    simp only [List.length_cons, List.length_nil]
    split <;> omega
  have hw := writeToBuffer_nowrap (c2State 998 reg 0) [65] (by decide) hcount hfree hcfs
  have happ : applyOp (c2State 998 reg 0) (.write [65]) =
      some ⟨writeBytes reg 1000 [65], 1001, 0, 1002, 0, 0,
        Function.update (dLf2 998) 999 1, 0, false, none, true⟩ := by
    simp only [applyOp, hw]
    unfold c2State MAX_DATA_INDEX
    dsimp only
    norm_num
  have htr : c2FullTrace = c2TraceK 998 ++ [.write [65]] := by
    unfold c2FullTrace c2TraceK
    rw [List.replicate_succ']
    rfl
  refine ⟨⟨writeBytes reg 1000 [65], 1001, 0, 1002, 0, 0,
    Function.update (dLf2 998) 999 1, 0, false, none, true⟩, ?_, ?_, rfl, rfl, rfl, rfl, ?_, ?_, ?_⟩
  · rw [htr, runOps_append, hrun]
    simp only [Option.some_bind]
    rw [runOps, happ]
    rfl
  · intro j hj
    dsimp only
    simp only [Function.update_apply, dLf2]
    unfold MAX_DATA_INDEX at hj
    split_ifs <;> omega
  · have hw2 := writeToBuffer_nowrap
      (⟨writeBytes reg 1000 [65], 1001, 0, 1002, 0, 0,
        Function.update (dLf2 998) 999 1, 0, false, none, true⟩ : Rb_Info) [66]
      (by simp) (by simp [getUnreadIndexCount, MAX_DATA_INDEX])
      (by simp [getFreeSpace]) (by simp [getContiguousFreeSpace])
    rw [hw2]
  · have hw2 := writeToBuffer_nowrap
      (⟨writeBytes reg 1000 [65], 1001, 0, 1002, 0, 0,
        Function.update (dLf2 998) 999 1, 0, false, none, true⟩ : Rb_Info) [66]
      (by simp) (by simp [getUnreadIndexCount, MAX_DATA_INDEX])
      (by simp [getFreeSpace]) (by simp [getContiguousFreeSpace])
    rw [hw2]
    dsimp only
    simp [Function.update_apply, dLf2]
  · have hw2 := writeToBuffer_nowrap
      (⟨writeBytes reg 1000 [65], 1001, 0, 1002, 0, 0,
        Function.update (dLf2 998) 999 1, 0, false, none, true⟩ : Rb_Info) [66]
      (by simp) (by simp [getUnreadIndexCount, MAX_DATA_INDEX])
      (by simp [getFreeSpace]) (by simp [getContiguousFreeSpace])
    rw [hw2]
    rfl

theorem writeBytes_nil (f : Nat → Nat) (off : Nat) : writeBytes f off [] = f := rfl

theorem readBytes_zero (f : Nat → Nat) (off : Nat) : readBytes f off 0 = [] := rfl

theorem c1_step (n : Nat) (hn : n ≤ 248) (reg : Nat → Nat) (bh : Int) :
    ∃ reg2, runOps (c1State n reg bh) c1Period = some (c1State (n + 1) reg2 bh) := by
  have hM : MAX_DATA_INDEX = 1000 := rfl
  -- values of the evolving chunk log
  have v1 : Function.update (dLf n) (4*n+1) 1 (4*n) = 1 := by
    simp only [Function.update_apply, dLf]
    split_ifs <;> omega
  -- op 1: write [65]  (no wrap)
  have hw1 := writeToBuffer_nowrap (c1State n reg bh) [65] (by decide)
    (by unfold getUnreadIndexCount c1State MAX_DATA_INDEX
        dsimp only
        split <;> omega)
    (by simp [getFreeSpace, c1State])
    (by simp [getContiguousFreeSpace, c1State])
  have e1 : applyOp (c1State n reg bh) (.write [65]) = some
      ⟨writeBytes reg 1 [65], 2, 0, 3, 4*n, 4*n+2, Function.update (dLf n) (4*n+1) 1,
        bh, false, none, true⟩ := by
    simp only [applyOp, hw1]
    unfold c1State
    dsimp only
    simp only [Option.some.injEq, Rb_Info.mk.injEq, List.length_cons, List.length_nil]
    refine ⟨trivial, trivial, trivial, trivial, trivial, ?_, trivial, trivial, trivial, trivial, trivial⟩
    rw [hM, if_neg (by omega)]
  -- op 2: read (normal peek of the 1-byte chunk at slot 4n, then commit)
  have hp1 := peekRead_normal
    (⟨writeBytes reg 1 [65], 2, 0, 3, 4*n, 4*n+2, Function.update (dLf n) (4*n+1) 1,
      bh, false, none, true⟩ : Rb_Info)
    rfl (by dsimp only; rw [v1]; omega) (by simp [isDataFragmented])
  have hc1 := commitRead_normal_noreset
    (⟨writeBytes reg 1 [65], 2, 0, 3, 4*n, 4*n+2, Function.update (dLf n) (4*n+1) 1,
      bh, false, none, false⟩ : Rb_Info)
    1 rfl (by omega) rfl (by dsimp only; exact v1.symm)
    (by simp [IS_BUFFER_EMPTY, advanceReader, getFreeSpace])
  have e2 : applyOp
      (⟨writeBytes reg 1 [65], 2, 0, 3, 4*n, 4*n+2, Function.update (dLf n) (4*n+1) 1,
        bh, false, none, true⟩ : Rb_Info) .read = some
      ⟨writeBytes reg 1 [65], 2, 1, 3, 4*n+1, 4*n+2,
        Function.update (Function.update (dLf n) (4*n+1) 1) (4*n) 0,
        bh, false, none, true⟩ := by
    simp only [applyOp, hp1, readBytes_length, v1, hc1]
    unfold advanceReader
    dsimp only
    simp only [Option.some.injEq, Rb_Info.mk.injEq]
    refine ⟨trivial, trivial, trivial, trivial, ?_, trivial, trivial, trivial, trivial, trivial, trivial⟩
    rw [hM, if_neg (by omega)]
  -- op 3: write [65]  (no wrap)
  have hw3 := writeToBuffer_nowrap
    (⟨writeBytes reg 1 [65], 2, 1, 3, 4*n+1, 4*n+2,
      Function.update (Function.update (dLf n) (4*n+1) 1) (4*n) 0,
      bh, false, none, true⟩ : Rb_Info) [65] (by decide)
    (by unfold getUnreadIndexCount MAX_DATA_INDEX
        dsimp only
        split <;> omega)
    (by simp [getFreeSpace])
    (by simp [getContiguousFreeSpace])
  have e3 : applyOp
      (⟨writeBytes reg 1 [65], 2, 1, 3, 4*n+1, 4*n+2,
        Function.update (Function.update (dLf n) (4*n+1) 1) (4*n) 0,
        bh, false, none, true⟩ : Rb_Info) (.write [65]) = some
      ⟨writeBytes (writeBytes reg 1 [65]) 2 [65], 3, 1, 3, 4*n+1, 4*n+3,
        Function.update (Function.update (Function.update (dLf n) (4*n+1) 1) (4*n) 0) (4*n+2) 1,
        bh, false, none, true⟩ := by
    simp only [applyOp, hw3]
    simp only [Option.some.injEq, Rb_Info.mk.injEq, List.length_cons, List.length_nil]
    refine ⟨trivial, trivial, trivial, trivial, trivial, ?_, trivial, trivial, trivial, trivial, trivial⟩
    rw [hM, if_neg (by omega)]
  -- op 4: read (normal peek of the 1-byte chunk at slot 4n+1, then commit)
  have v3 : Function.update (Function.update (Function.update (dLf n) (4*n+1) 1) (4*n) 0)
      (4*n+2) 1 (4*n+1) = 1 := by
    simp only [Function.update_apply, dLf]
    split_ifs <;> omega
  have hp3 := peekRead_normal
    (⟨writeBytes (writeBytes reg 1 [65]) 2 [65], 3, 1, 3, 4*n+1, 4*n+3,
      Function.update (Function.update (Function.update (dLf n) (4*n+1) 1) (4*n) 0) (4*n+2) 1,
      bh, false, none, true⟩ : Rb_Info)
    rfl (by dsimp only; rw [v3]; omega) (by simp [isDataFragmented])
  have hc3 := commitRead_normal_noreset
    (⟨writeBytes (writeBytes reg 1 [65]) 2 [65], 3, 1, 3, 4*n+1, 4*n+3,
      Function.update (Function.update (Function.update (dLf n) (4*n+1) 1) (4*n) 0) (4*n+2) 1,
      bh, false, none, false⟩ : Rb_Info)
    1 rfl (by omega) rfl (by dsimp only; exact v3.symm)
    (by simp [IS_BUFFER_EMPTY, advanceReader, getFreeSpace])
  have e4 : applyOp
      (⟨writeBytes (writeBytes reg 1 [65]) 2 [65], 3, 1, 3, 4*n+1, 4*n+3,
        Function.update (Function.update (Function.update (dLf n) (4*n+1) 1) (4*n) 0) (4*n+2) 1,
        bh, false, none, true⟩ : Rb_Info) .read = some
      ⟨writeBytes (writeBytes reg 1 [65]) 2 [65], 3, 2, 3, 4*n+2, 4*n+3,
        Function.update (Function.update (Function.update (Function.update (dLf n)
          (4*n+1) 1) (4*n) 0) (4*n+2) 1) (4*n+1) 0,
        bh, false, none, true⟩ := by
    simp only [applyOp, hp3, readBytes_length, v3, hc3]
    unfold advanceReader
    dsimp only
    simp only [Option.some.injEq, Rb_Info.mk.injEq]
    refine ⟨trivial, trivial, trivial, trivial, ?_, trivial, trivial, trivial, trivial, trivial, trivial⟩
    rw [hM, if_neg (by omega)]
  -- op 5: write [65]  (wraps: contiguous free space is 0, zero-length marker entry)
  have hw5 := writeToBuffer_wrap
    (⟨writeBytes (writeBytes reg 1 [65]) 2 [65], 3, 2, 3, 4*n+2, 4*n+3,
      Function.update (Function.update (Function.update (Function.update (dLf n)
        (4*n+1) 1) (4*n) 0) (4*n+2) 1) (4*n+1) 0,
      bh, false, none, true⟩ : Rb_Info) [65] (by decide)
    (by unfold getUnreadIndexCount MAX_DATA_INDEX
        dsimp only
        split <;> omega)
    (by simp [getFreeSpace])
    (by simp [getContiguousFreeSpace])
  have e5 : applyOp
      (⟨writeBytes (writeBytes reg 1 [65]) 2 [65], 3, 2, 3, 4*n+2, 4*n+3,
        Function.update (Function.update (Function.update (Function.update (dLf n)
          (4*n+1) 1) (4*n) 0) (4*n+2) 1) (4*n+1) 0,
        bh, false, none, true⟩ : Rb_Info) (.write [65]) = some
      ⟨writeBytes (writeBytes (writeBytes reg 1 [65]) 2 [65]) 0 [65], 1, 2, 3, 4*n+2, 4*n+5,
        Function.update (Function.update (Function.update (Function.update (Function.update
          (Function.update (dLf n) (4*n+1) 1) (4*n) 0) (4*n+2) 1) (4*n+1) 0) (4*n+3) 0) (4*n+4) 1,
        bh, true, none, true⟩ := by
    simp only [applyOp, hw5]
    simp only [getContiguousFreeSpace]
    norm_num
    simp only [List.take_zero, List.drop_zero, writeBytes_nil, List.length_cons, List.length_nil,
      Option.some.injEq, Rb_Info.mk.injEq]
    rw [hM]
    rw [if_neg (show ¬ (4*n+3+1 = 1000) by omega)]
    rw [if_neg (show ¬ (4*n+3+1+1 = 1000) by omega)]
    refine ⟨trivial, by omega, rfl⟩
  -- op 6: read (fragmented peek consuming the boundary chunk and the zero marker)
  have v5a : Function.update (Function.update (Function.update (Function.update (Function.update
      (Function.update (dLf n) (4*n+1) 1) (4*n) 0) (4*n+2) 1) (4*n+1) 0) (4*n+3) 0) (4*n+4) 1
      (4*n+2) = 1 := by
    simp only [Function.update_apply, dLf]
    split_ifs <;> omega
  have v5b : Function.update (Function.update (Function.update (Function.update (Function.update
      (Function.update (dLf n) (4*n+1) 1) (4*n) 0) (4*n+2) 1) (4*n+1) 0) (4*n+3) 0) (4*n+4) 1
      (4*n+2+1) = 0 := by
    simp only [Function.update_apply, dLf]
    split_ifs <;> omega
  have hp5 := peekRead_frag
    (⟨writeBytes (writeBytes (writeBytes reg 1 [65]) 2 [65]) 0 [65], 1, 2, 3, 4*n+2, 4*n+5,
      Function.update (Function.update (Function.update (Function.update (Function.update
        (Function.update (dLf n) (4*n+1) 1) (4*n) 0) (4*n+2) 1) (4*n+1) 0) (4*n+3) 0) (4*n+4) 1,
      bh, true, none, true⟩ : Rb_Info)
    rfl (by dsimp only; rw [v5a]; omega) (by simp [isDataFragmented, v5a])
    (by dsimp only; rw [hM]; omega)
  have hcf := commitRead_frag_noreset
    (⟨writeBytes (writeBytes (writeBytes reg 1 [65]) 2 [65]) 0 [65], 1, 0, 3, 4*n+2+2, 4*n+5,
      Function.update (Function.update (Function.update (Function.update (Function.update
        (Function.update (Function.update (Function.update (dLf n)
        (4*n+1) 1) (4*n) 0) (4*n+2) 1) (4*n+1) 0) (4*n+3) 0) (4*n+4) 1) (4*n+2) 0) (4*n+2+1) 0,
      bh, true, some (readBytes (writeBytes (writeBytes (writeBytes reg 1 [65]) 2 [65]) 0 [65]) 2 1),
      false⟩ : Rb_Info)
    1 (readBytes (writeBytes (writeBytes (writeBytes reg 1 [65]) 2 [65]) 0 [65]) 2 1)
    rfl (by omega) rfl
    (by simp [IS_BUFFER_EMPTY, handleFragmentedCommit, getFreeSpace])
  have e6 : applyOp
      (⟨writeBytes (writeBytes (writeBytes reg 1 [65]) 2 [65]) 0 [65], 1, 2, 3, 4*n+2, 4*n+5,
        Function.update (Function.update (Function.update (Function.update (Function.update
          (Function.update (dLf n) (4*n+1) 1) (4*n) 0) (4*n+2) 1) (4*n+1) 0) (4*n+3) 0) (4*n+4) 1,
        bh, true, none, true⟩ : Rb_Info) .read = some
      ⟨writeBytes (writeBytes (writeBytes reg 1 [65]) 2 [65]) 0 [65], 1, 0, 3, 4*n+2+2, 4*n+5,
        Function.update (Function.update (Function.update (Function.update (Function.update
          (Function.update (Function.update (Function.update (dLf n)
          (4*n+1) 1) (4*n) 0) (4*n+2) 1) (4*n+1) 0) (4*n+3) 0) (4*n+4) 1) (4*n+2) 0) (4*n+2+1) 0,
        bh, false, none, true⟩ := by
    simp only [applyOp, hp5, v5a, v5b, readBytes_zero, List.append_nil, readBytes_length, hcf]
    rfl
  -- assemble the six operations
  refine ⟨writeBytes (writeBytes (writeBytes reg 1 [65]) 2 [65]) 0 [65], ?_⟩
  simp only [c1Period, runOps, e1, e2, e3, e4, e5, e6]
  unfold c1State
  simp only [Option.some.injEq, Rb_Info.mk.injEq]
  refine ⟨trivial, trivial, trivial, trivial, by omega, by omega, ?_, trivial, trivial, trivial, trivial⟩
  funext j
  simp only [Function.update_apply, dLf]
  split_ifs <;> omega



theorem c1_lead_state :
    ∃ reg, runOps (mkBuffer 3) (c1TraceK 0) = some (c1State 1 reg 0) := by
  refine ⟨writeBytes (writeBytes (writeBytes (writeBytes (writeBytes
    (fun _ : Nat => 0) 0 [65]) 1 [65]) 2 [65]) 3 []) 0 [65], ?_⟩
  have h : runOps (mkBuffer 3) (c1TraceK 0) = some
      ⟨writeBytes (writeBytes (writeBytes (writeBytes (writeBytes
        (fun _ : Nat => 0) 0 [65]) 1 [65]) 2 [65]) 3 []) 0 [65], 1, 0, 3, 4, 5,
        Function.update (Function.update (Function.update (Function.update (Function.update
          (Function.update (Function.update (Function.update (Function.update
          (fun _ : Nat => 0) 0 1) 1 1) 0 0) 2 1) 1 0) 3 0) 4 1) 2 0) 3 0,
        0, false, none, true⟩ := rfl
  rw [h]
  unfold c1State
  simp only [Option.some.injEq, Rb_Info.mk.injEq]
  refine ⟨trivial, trivial, trivial, trivial, trivial, trivial, ?_, trivial, trivial, trivial, trivial⟩
  funext j
  simp only [Function.update_apply, dLf]
  split_ifs <;> omega

theorem c1_reach : ∀ k, k ≤ 248 →
    ∃ reg, runOps (mkBuffer 3) (c1TraceK k) = some (c1State (k + 1) reg 0) := by
  intro k
  induction k with
  | zero => intro _; exact c1_lead_state
  | succ k ih =>
    intro hk
    obtain ⟨reg, hrun⟩ := ih (by omega)
    obtain ⟨reg2, hstep⟩ := c1_step (k + 1) (by omega) reg 0
    have htr : c1TraceK (k + 1) = c1TraceK k ++ c1Period := by
      unfold c1TraceK
      rw [List.replicate_succ', List.flatten_append]
      simp [List.append_assoc]
    refine ⟨reg2, ?_⟩
    rw [htr, runOps_append, hrun]
    simp only [Option.some_bind]
    exact hstep



theorem c1_last (reg : Nat → Nat) (bh : Int) :
    runOps (c1State 249 reg bh) c1Period = some
      ⟨writeBytes (writeBytes (writeBytes reg 1 [65]) 2 [65]) 0 [65], 1, 0, 3, 1000, 1,
        Function.update (Function.update (Function.update (Function.update (Function.update
          (Function.update (Function.update (Function.update (dLf 249)
          997 1) 996 0) 998 1) 997 0) 999 0) 0 1) 998 0) 999 0,
        bh, false, none, true⟩ := by
  have hstart : c1State 249 reg bh =
      ⟨reg, 1, 0, 3, 996, 997, dLf 249, bh, false, none, true⟩ := by
    unfold c1State
    norm_num
  rw [hstart]
  -- op 1: write (no wrap)
  have hw1 := writeToBuffer_nowrap
    (⟨reg, 1, 0, 3, 996, 997, dLf 249, bh, false, none, true⟩ : Rb_Info) [65] (by decide)
    (by norm_num [getUnreadIndexCount, MAX_DATA_INDEX])
    (by norm_num [getFreeSpace])
    (by norm_num [getContiguousFreeSpace])
  have e1 : applyOp (⟨reg, 1, 0, 3, 996, 997, dLf 249, bh, false, none, true⟩ : Rb_Info)
      (.write [65]) = some
      ⟨writeBytes reg 1 [65], 2, 0, 3, 996, 998, Function.update (dLf 249) 997 1,
        bh, false, none, true⟩ := by
    simp only [applyOp, hw1]
    norm_num [MAX_DATA_INDEX]
  -- op 2: read
  have v1 : Function.update (dLf 249) 997 1 996 = 1 := by
    norm_num [Function.update_apply, dLf]
  have hp1 := peekRead_normal
    (⟨writeBytes reg 1 [65], 2, 0, 3, 996, 998, Function.update (dLf 249) 997 1,
      bh, false, none, true⟩ : Rb_Info)
    rfl (by dsimp only; rw [v1]; omega) (by simp [isDataFragmented])
  have hc1 := commitRead_normal_noreset
    (⟨writeBytes reg 1 [65], 2, 0, 3, 996, 998, Function.update (dLf 249) 997 1,
      bh, false, none, false⟩ : Rb_Info)
    1 rfl (by omega) rfl (by dsimp only; exact v1.symm)
    (by simp [IS_BUFFER_EMPTY, advanceReader, getFreeSpace])
  have e2 : applyOp
      (⟨writeBytes reg 1 [65], 2, 0, 3, 996, 998, Function.update (dLf 249) 997 1,
        bh, false, none, true⟩ : Rb_Info) .read = some
      ⟨writeBytes reg 1 [65], 2, 1, 3, 997, 998,
        Function.update (Function.update (dLf 249) 997 1) 996 0,
        bh, false, none, true⟩ := by
    simp only [applyOp, hp1, readBytes_length, v1, hc1]
    unfold advanceReader
    norm_num [MAX_DATA_INDEX]
  -- op 3: write (no wrap)
  have hw3 := writeToBuffer_nowrap
    (⟨writeBytes reg 1 [65], 2, 1, 3, 997, 998,
      Function.update (Function.update (dLf 249) 997 1) 996 0,
      bh, false, none, true⟩ : Rb_Info) [65] (by decide)
    (by norm_num [getUnreadIndexCount, MAX_DATA_INDEX])
    (by norm_num [getFreeSpace])
    (by norm_num [getContiguousFreeSpace])
  have e3 : applyOp
      (⟨writeBytes reg 1 [65], 2, 1, 3, 997, 998,
        Function.update (Function.update (dLf 249) 997 1) 996 0,
        bh, false, none, true⟩ : Rb_Info) (.write [65]) = some
      ⟨writeBytes (writeBytes reg 1 [65]) 2 [65], 3, 1, 3, 997, 999,
        Function.update (Function.update (Function.update (dLf 249) 997 1) 996 0) 998 1,
        bh, false, none, true⟩ := by
    simp only [applyOp, hw3]
    norm_num [MAX_DATA_INDEX]
  -- op 4: read
  have v3 : Function.update (Function.update (Function.update (dLf 249) 997 1) 996 0)
      998 1 997 = 1 := by
    norm_num [Function.update_apply, dLf]
  have hp3 := peekRead_normal
    (⟨writeBytes (writeBytes reg 1 [65]) 2 [65], 3, 1, 3, 997, 999,
      Function.update (Function.update (Function.update (dLf 249) 997 1) 996 0) 998 1,
      bh, false, none, true⟩ : Rb_Info)
    rfl (by dsimp only; rw [v3]; omega) (by simp [isDataFragmented])
  have hc3 := commitRead_normal_noreset
    (⟨writeBytes (writeBytes reg 1 [65]) 2 [65], 3, 1, 3, 997, 999,
      Function.update (Function.update (Function.update (dLf 249) 997 1) 996 0) 998 1,
      bh, false, none, false⟩ : Rb_Info)
    1 rfl (by omega) rfl (by dsimp only; exact v3.symm)
    (by simp [IS_BUFFER_EMPTY, advanceReader, getFreeSpace])
  have e4 : applyOp
      (⟨writeBytes (writeBytes reg 1 [65]) 2 [65], 3, 1, 3, 997, 999,
        Function.update (Function.update (Function.update (dLf 249) 997 1) 996 0) 998 1,
        bh, false, none, true⟩ : Rb_Info) .read = some
      ⟨writeBytes (writeBytes reg 1 [65]) 2 [65], 3, 2, 3, 998, 999,
        Function.update (Function.update (Function.update (Function.update (dLf 249)
          997 1) 996 0) 998 1) 997 0,
        bh, false, none, true⟩ := by
    simp only [applyOp, hp3, readBytes_length, v3, hc3]
    unfold advanceReader
    norm_num [MAX_DATA_INDEX]
  -- op 5: write (wraps, and the write index wraps from 999 to 0)
  have hw5 := writeToBuffer_wrap
    (⟨writeBytes (writeBytes reg 1 [65]) 2 [65], 3, 2, 3, 998, 999,
      Function.update (Function.update (Function.update (Function.update (dLf 249)
        997 1) 996 0) 998 1) 997 0,
      bh, false, none, true⟩ : Rb_Info) [65] (by decide)
    (by norm_num [getUnreadIndexCount, MAX_DATA_INDEX])
    (by norm_num [getFreeSpace])
    (by norm_num [getContiguousFreeSpace])
  have e5 : applyOp
      (⟨writeBytes (writeBytes reg 1 [65]) 2 [65], 3, 2, 3, 998, 999,
        Function.update (Function.update (Function.update (Function.update (dLf 249)
          997 1) 996 0) 998 1) 997 0,
        bh, false, none, true⟩ : Rb_Info) (.write [65]) = some
      ⟨writeBytes (writeBytes (writeBytes reg 1 [65]) 2 [65]) 0 [65], 1, 2, 3, 998, 1,
        Function.update (Function.update (Function.update (Function.update (Function.update
          (Function.update (dLf 249) 997 1) 996 0) 998 1) 997 0) 999 0) 0 1,
        bh, true, none, true⟩ := by
    simp only [applyOp, hw5]
    simp only [getContiguousFreeSpace]
    norm_num [MAX_DATA_INDEX]
    simp only [List.take_zero, List.drop_zero, writeBytes_nil, List.length_cons, List.length_nil,
      Option.some.injEq, Rb_Info.mk.injEq]
  -- op 6: read (fragmented peek of slots 998 and 999; the second increment leaves readIndex = 1000)
  have v5a : Function.update (Function.update (Function.update (Function.update (Function.update
      (Function.update (dLf 249) 997 1) 996 0) 998 1) 997 0) 999 0) 0 1 998 = 1 := by
    norm_num [Function.update_apply, dLf]
  have v5b : Function.update (Function.update (Function.update (Function.update (Function.update
      (Function.update (dLf 249) 997 1) 996 0) 998 1) 997 0) 999 0) 0 1 (998+1) = 0 := by
    norm_num [Function.update_apply, dLf]
  have hp5 := peekRead_frag
    (⟨writeBytes (writeBytes (writeBytes reg 1 [65]) 2 [65]) 0 [65], 1, 2, 3, 998, 1,
      Function.update (Function.update (Function.update (Function.update (Function.update
        (Function.update (dLf 249) 997 1) 996 0) 998 1) 997 0) 999 0) 0 1,
      bh, true, none, true⟩ : Rb_Info)
    rfl (by dsimp only; rw [v5a]; omega) (by simp [isDataFragmented, v5a])
    (by dsimp only; norm_num [MAX_DATA_INDEX])
  have hcf := commitRead_frag_noreset
    (⟨writeBytes (writeBytes (writeBytes reg 1 [65]) 2 [65]) 0 [65], 1, 0, 3, 998+2, 1,
      Function.update (Function.update (Function.update (Function.update (Function.update
        (Function.update (Function.update (Function.update (dLf 249)
        997 1) 996 0) 998 1) 997 0) 999 0) 0 1) 998 0) (998+1) 0,
      bh, true, some (readBytes (writeBytes (writeBytes (writeBytes reg 1 [65]) 2 [65]) 0 [65]) 2 1),
      false⟩ : Rb_Info)
    1 (readBytes (writeBytes (writeBytes (writeBytes reg 1 [65]) 2 [65]) 0 [65]) 2 1)
    rfl (by omega) rfl
    (by simp [IS_BUFFER_EMPTY, handleFragmentedCommit, getFreeSpace])
  have e6 : applyOp
      (⟨writeBytes (writeBytes (writeBytes reg 1 [65]) 2 [65]) 0 [65], 1, 2, 3, 998, 1,
        Function.update (Function.update (Function.update (Function.update (Function.update
          (Function.update (dLf 249) 997 1) 996 0) 998 1) 997 0) 999 0) 0 1,
        bh, true, none, true⟩ : Rb_Info) .read = some
      ⟨writeBytes (writeBytes (writeBytes reg 1 [65]) 2 [65]) 0 [65], 1, 0, 3, 998+2, 1,
        Function.update (Function.update (Function.update (Function.update (Function.update
          (Function.update (Function.update (Function.update (dLf 249)
          997 1) 996 0) 998 1) 997 0) 999 0) 0 1) 998 0) (998+1) 0,
        bh, false, none, true⟩ := by
    simp only [applyOp, hp5, v5a, v5b, readBytes_zero, List.append_nil, readBytes_length, hcf]
    rfl
  simp only [c1Period, runOps, e1, e2, e3, e4, e5, e6]




/-- C1: the round-trip claim fails on the code. On a 3-byte buffer, a trace
of 1-byte writes interleaved with peek+commit reads — every write accepted
with its size within the reported free space, every peek and commit
successful — marches the chunk log forward until a fragmented chunk occupies
log slots 998 and 999. Its peek increments `readIndex` past 999 without the
wrap-around check (ringBuffer.c:471), leaving `readIndex = 1000 =
MAX_DATA_INDEX` (an out-of-bounds `dataLen` access in C). One accepted 1-byte
chunk is still unread (1 occupied byte, free space 2 of 3, its log entry at
slot 0), yet the next `Rb_PeekRead` reports no data, so the written byte can
never be read back: the concatenation property is violated. -/
theorem c1_roundTrip_readIndexOverflow :
    ∃ st, runOps (mkBuffer 3) c1FullTrace = some st
      ∧ st.readIndex = MAX_DATA_INDEX
      ∧ getUnreadIndexCount st = 1
      ∧ getFreeSpace st = 2
      ∧ st.size = 3
      ∧ st.dataLen 0 = 1
      ∧ (Rb_PeekRead st).1 = .error .noData
      ∧ (Rb_PeekRead st).2.readCommittedF = false := by
  obtain ⟨reg, hrun⟩ := c1_reach 248 (by omega)
  refine ⟨⟨writeBytes (writeBytes (writeBytes reg 1 [65]) 2 [65]) 0 [65], 1, 0, 3, 1000, 1,
    Function.update (Function.update (Function.update (Function.update (Function.update
      (Function.update (Function.update (Function.update (dLf 249)
      997 1) 996 0) 998 1) 997 0) 999 0) 0 1) 998 0) 999 0,
    0, false, none, true⟩, ?_, rfl, ?_, ?_, rfl, ?_, ?_, ?_⟩
  · rw [show c1FullTrace = c1TraceK 248 ++ c1Period from rfl, runOps_append, hrun]
    simp only [Option.some_bind]
    exact c1_last reg 0
  · norm_num [getUnreadIndexCount, MAX_DATA_INDEX]
  · norm_num [getFreeSpace]
  · norm_num [Function.update_apply, dLf]
  · rw [peekRead_noData _ rfl (by norm_num [Function.update_apply, dLf])]
  · rw [peekRead_noData _ rfl (by norm_num [Function.update_apply, dLf])]

end RingBuffer
